import Mathlib

/-!
Shallow embedding of the adaptive abuse-detection subsystem of the
helios-backups-provider server: the `SlowLorisProtection` class
(per-client connection tracking with adaptive blocking, per-client
download tracking with slow-transfer termination, and the periodic
cleanup sweep), the security configuration constants, the middleware
stack assembled by `BackupServer.setupMiddleware`, and the skip
predicate of the request rate limiter.

Timestamps are milliseconds on a monotone clock, modelled as `Nat`
(in every reachable trace `Date.now()` is non-decreasing, so JS
subtraction of an earlier timestamp from a later one agrees with
truncated `Nat` subtraction).  Counters that JS stores in `number`
and decrements are modelled as `Int` so that non-negativity is a
theorem, not a typing artefact.  JS float quotients that are only
compared against small constants are modelled in `ℚ`.
-/

/-! ## Configuration constants (src/config/security.ts) -/

namespace SECURITY_CONFIG

def MAX_CONCURRENT_CONNECTIONS : Nat := 100

def MAX_SLOW_CONNECTIONS : Nat := 50

def SLOW_LORIS_BLOCK_DURATION : Nat := 600000

def SLOW_LORIS_GRACE_PERIOD : Nat := 30000

namespace DOWNLOAD_SLOW_LORIS

def MAX_SLOW_DOWNLOADS : Nat := 5

def MIN_TRANSFER_RATE : Nat := 256

def MAX_DOWNLOAD_DURATION : Nat := 3600000

def SLOW_DOWNLOAD_THRESHOLD : Nat := 128

def BLOCK_DURATION : Nat := 300000

end DOWNLOAD_SLOW_LORIS

end SECURITY_CONFIG

/-! ## Tracker maps

JS `Map<string, T>`: an insertion-ordered association list.  `mapSet`
replaces in place when the key exists and appends otherwise, matching
`Map.prototype.set`. -/

def mapGet {α : Type} (m : List (String × α)) (ip : String) : Option α :=
  match m with
  | [] => none
  | (k, v) :: rest => if k = ip then some v else mapGet rest ip

def mapSet {α : Type} (m : List (String × α)) (ip : String) (v : α) :
    List (String × α) :=
  match m with
  | [] => [(ip, v)]
  | (k, w) :: rest => if k = ip then (ip, v) :: rest else (k, w) :: mapSet rest ip v

/-- `Math.ceil(a / b)` for a non-negative numerator, as used for the
`retryAfter` hints. -/
def ceilDiv (a b : Nat) : Nat := (a + b - 1) / b

/-! ## ConnectionTracker and its operations (SlowLorisProtection) -/

structure ConnectionTracker where
  ip : String
  connections : Int
  slowConnections : Nat
  lastActivity : Nat
  isBlocked : Bool
  blockUntil : Nat
  firstConnection : Nat
  requestCount : Nat
  timeoutCount : Nat
deriving DecidableEq, Repr

abbrev ConnMap := List (String × ConnectionTracker)

/-- The tracker object created on a client's first observed connection. -/
def freshConnectionTracker (ip : String) (now : Nat) : ConnectionTracker :=
  { ip := ip
    connections := 0
    slowConnections := 0
    lastActivity := now
    isBlocked := false
    blockUntil := 0
    firstConnection := now
    requestCount := 0
    timeoutCount := 0 }

/-- `SlowLorisProtection.addConnection` (part_006 lines 92-131): create the
tracker if absent, increment `connections`/`requestCount`, stamp
`lastActivity`, then apply the adaptive blocking rule. -/
def addConnection (now : Nat) (m : ConnMap) (ip : String) : ConnMap :=
  let tracker :=
    match mapGet m ip with
    | some t => t
    | none => freshConnectionTracker ip now
  let tracker := { tracker with
    connections := tracker.connections + 1
    lastActivity := now
    requestCount := tracker.requestCount + 1 }
  let timeSinceFirstConnection := now - tracker.firstConnection
  let adaptiveThreshold :=
    min SECURITY_CONFIG.MAX_CONCURRENT_CONNECTIONS
      (max 20 (timeSinceFirstConnection / 5000))
  let timeoutRatio : ℚ := mkRat tracker.timeoutCount (max tracker.requestCount 1)
  let shouldBlock : Bool :=
    decide ((adaptiveThreshold : Int) < tracker.connections) &&
    (decide (SECURITY_CONFIG.SLOW_LORIS_GRACE_PERIOD < timeSinceFirstConnection) &&
     (decide (mkRat 1 2 < timeoutRatio) ||
      decide ((SECURITY_CONFIG.MAX_SLOW_CONNECTIONS : Int) < tracker.connections)))
  let tracker :=
    if shouldBlock then
      { tracker with
        isBlocked := true
        blockUntil := now + SECURITY_CONFIG.SLOW_LORIS_BLOCK_DURATION }
    else tracker
  mapSet m ip tracker

/-- `SlowLorisProtection.removeConnection` (part_006 lines 133-139): a bare
decrement guarded by `connections > 0`, stamping `lastActivity`. -/
def removeConnection (now : Nat) (m : ConnMap) (ip : String) : ConnMap :=
  match mapGet m ip with
  | none => m
  | some t =>
    if 0 < t.connections then
      mapSet m ip { t with connections := t.connections - 1, lastActivity := now }
    else m

/-- `SlowLorisProtection.isIpBlocked` (part_006 lines 71-85).  Clearing a
lapsed block mutates the tracker, so the updated map is returned too. -/
def isIpBlocked (now : Nat) (m : ConnMap) (ip : String) : Bool × ConnMap :=
  match mapGet m ip with
  | none => (false, m)
  | some t =>
    if t.isBlocked && decide (now < t.blockUntil) then (true, m)
    else if t.isBlocked && decide (t.blockUntil ≤ now) then
      (false, mapSet m ip { t with isBlocked := false, blockUntil := 0 })
    else (false, m)

/-- `SlowLorisProtection.getBlockTime` (part_006 lines 87-90). -/
def getBlockTime (m : ConnMap) (ip : String) : Nat :=
  match mapGet m ip with
  | some t => t.blockUntil
  | none => 0

/-- `SlowLorisProtection.recordTimeout` (part_006 lines 168-182). -/
def recordTimeout (now : Nat) (m : ConnMap) (ip : String) : ConnMap :=
  match mapGet m ip with
  | none => m
  | some t =>
    let t := { t with
      timeoutCount := t.timeoutCount + 1
      slowConnections := t.slowConnections + 1 }
    let timeoutRatio : ℚ := mkRat t.timeoutCount (max t.requestCount 1)
    let t :=
      if decide (mkRat 7 10 < timeoutRatio) && decide (10 < t.timeoutCount) then
        { t with
          isBlocked := true
          blockUntil := now + SECURITY_CONFIG.SLOW_LORIS_BLOCK_DURATION }
      else t
    mapSet m ip t

/-- The boundary decision returned to the request: proceed, or reject with
a 429 body whose `retryAfter` is `Math.ceil((blockUntil - now) / 1000)`. -/
inductive Decision where
  | allow
  | deny (retryAfter : Nat)
deriving DecidableEq, Repr

/-- The non-download branch of `SlowLorisProtection.middleware`
(part_006 lines 48-67): consult the blocklist, deny with the retry hint,
or register the connection and continue. -/
def connectionMiddlewareStep (now : Nat) (m : ConnMap) (ip : String) :
    Decision × ConnMap :=
  let r := isIpBlocked now m ip
  if r.1 then
    (.deny (ceilDiv (getBlockTime r.2 ip - now) 1000), r.2)
  else
    (.allow, addConnection now r.2 ip)

/-! ## DownloadTracker and its operations -/

structure DownloadTracker where
  ip : String
  activeDownloads : Int
  slowDownloads : Nat
  totalBytesTransferred : Nat
  lastActivity : Nat
  isBlocked : Bool
  blockUntil : Nat
  downloadStartTime : Nat
  lastTransferTime : Nat
  transferRate : ℚ
deriving DecidableEq, Repr

abbrev DlMap := List (String × DownloadTracker)

/-- The tracker object created on a client's first observed download. -/
def freshDownloadTracker (ip : String) (now : Nat) : DownloadTracker :=
  { ip := ip
    activeDownloads := 0
    slowDownloads := 0
    totalBytesTransferred := 0
    lastActivity := now
    isBlocked := false
    blockUntil := 0
    downloadStartTime := now
    lastTransferTime := now
    transferRate := 0 }

/-- `SlowLorisProtection.addDownload` (part_006 lines 230-260): create the
tracker if absent, increment `activeDownloads`, stamp the activity and
transfer timestamps, then apply the hard concurrency cap. -/
def addDownload (now : Nat) (m : DlMap) (ip : String) : DlMap :=
  let tracker :=
    match mapGet m ip with
    | some t => t
    | none => freshDownloadTracker ip now
  let tracker := { tracker with
    activeDownloads := tracker.activeDownloads + 1
    lastActivity := now
    downloadStartTime := now
    lastTransferTime := now }
  let tracker :=
    if decide ((SECURITY_CONFIG.DOWNLOAD_SLOW_LORIS.MAX_SLOW_DOWNLOADS : Int) <
        tracker.activeDownloads) then
      { tracker with
        isBlocked := true
        blockUntil := now + SECURITY_CONFIG.DOWNLOAD_SLOW_LORIS.BLOCK_DURATION }
    else tracker
  mapSet m ip tracker

/-- `SlowLorisProtection.removeDownload` (part_006 lines 262-268). -/
def removeDownload (now : Nat) (m : DlMap) (ip : String) : DlMap :=
  match mapGet m ip with
  | none => m
  | some t =>
    if 0 < t.activeDownloads then
      mapSet m ip { t with activeDownloads := t.activeDownloads - 1, lastActivity := now }
    else m

/-- `SlowLorisProtection.isDownloadBlocked` (part_006 lines 209-223). -/
def isDownloadBlocked (now : Nat) (m : DlMap) (ip : String) : Bool × DlMap :=
  match mapGet m ip with
  | none => (false, m)
  | some t =>
    if t.isBlocked && decide (now < t.blockUntil) then (true, m)
    else if t.isBlocked && decide (t.blockUntil ≤ now) then
      (false, mapSet m ip { t with isBlocked := false, blockUntil := 0 })
    else (false, m)

/-- `SlowLorisProtection.getDownloadBlockTime` (part_006 lines 225-228). -/
def getDownloadBlockTime (m : DlMap) (ip : String) : Nat :=
  match mapGet m ip with
  | some t => t.blockUntil
  | none => 0

/-- `SlowLorisProtection.handleDownloadProtection` (part_006 lines
184-207): consult the download blocklist, deny with the retry hint, or
register the download and continue to the streaming handler. -/
def handleDownloadProtection (now : Nat) (m : DlMap) (ip : String) :
    Decision × DlMap :=
  let r := isDownloadBlocked now m ip
  if r.1 then
    (.deny (ceilDiv (getDownloadBlockTime r.2 ip - now) 1000), r.2)
  else
    (.allow, addDownload now r.2 ip)

/-! ## Per-download monitoring (setupDownloadMonitoring) -/

/-- The closure state of one monitoring session: the download-local byte
count and the `Date.now()` captured when monitoring was installed
(part_006 lines 274-275). -/
structure DownloadMonitorState where
  bytesTransferred : Nat
  startTime : Nat
deriving DecidableEq, Repr

/-- The `res.write` override for a Buffer chunk (part_006 lines 280-300):
accumulate the byte counters; when strictly more than 1000 ms have passed
since `lastTransferTime`, recompute `transferRate` as
`bytesTransferred / ((now - startTime) / 1000)` — stored in the exact form
`mkRat (bytesTransferred * 1000) (now - startTime)`, which equals that
quotient in `ℚ` (see `mkRat_thousandths_eq_div_div`) — and count a slow
occurrence when the recomputed rate is below the slow threshold. -/
def onWriteChunk (now chunkLen : Nat) (ms : DownloadMonitorState)
    (t : DownloadTracker) : DownloadMonitorState × DownloadTracker :=
  let ms := { ms with bytesTransferred := ms.bytesTransferred + chunkLen }
  let t := { t with totalBytesTransferred := t.totalBytesTransferred + chunkLen }
  let timeElapsed := now - t.lastTransferTime
  if 1000 < timeElapsed then
    let rate : ℚ := mkRat (ms.bytesTransferred * 1000) (now - ms.startTime)
    let t := { t with transferRate := rate, lastTransferTime := now }
    let t :=
      if rate < (SECURITY_CONFIG.DOWNLOAD_SLOW_LORIS.SLOW_DOWNLOAD_THRESHOLD : ℚ) then
        { t with slowDownloads := t.slowDownloads + 1 }
      else t
    (ms, t)
  else (ms, t)

/-- The `setTimeout` armed at download start (part_006 lines 310-321):
state of the watchdog timer. -/
structure DownloadWatchdogTimer where
  armedAt : Nat
  duration : Nat
  cancelled : Bool
deriving DecidableEq, Repr

/-- Arming the slow-download watchdog: `setTimeout(..., MAX_DOWNLOAD_DURATION)`. -/
def armDownloadWatchdog (now : Nat) : DownloadWatchdogTimer :=
  { armedAt := now
    duration := SECURITY_CONFIG.DOWNLOAD_SLOW_LORIS.MAX_DOWNLOAD_DURATION
    cancelled := false }

/-- The instant a `setTimeout` timer fires when it is not cancelled. -/
def watchdogFireTime (w : DownloadWatchdogTimer) : Nat := w.armedAt + w.duration

/-- What the boundary layer is told to do when the watchdog callback runs:
nothing, or terminate the response (`res.end()`), first answering 408 when
headers were not yet sent. -/
inductive WatchdogAction where
  | keep
  | terminate (send408 : Bool)
deriving DecidableEq, Repr

/-- The watchdog callback body (part_006 lines 311-320): if the tracked
`transferRate` is below `MIN_TRANSFER_RATE`, block the client and abort the
response; otherwise do nothing. -/
def fireDownloadWatchdog (now : Nat) (headersSent : Bool) (t : DownloadTracker) :
    DownloadTracker × WatchdogAction :=
  if t.transferRate < (SECURITY_CONFIG.DOWNLOAD_SLOW_LORIS.MIN_TRANSFER_RATE : ℚ) then
    ({ t with
        isBlocked := true
        blockUntil := now + SECURITY_CONFIG.DOWNLOAD_SLOW_LORIS.BLOCK_DURATION },
     .terminate (!headersSent))
  else (t, .keep)

/-- A download session as the watchdog sees it: its timer, the client's
tracker, and whether response headers have gone out. -/
structure DownloadSession where
  timer : DownloadWatchdogTimer
  tracker : DownloadTracker
  headersSent : Bool
deriving DecidableEq, Repr

/-- Events that interact with the watchdog: the response finishing or
closing (which `clearTimeout` the watchdog, part_006 lines 323-324), and
the timer callback running at time `now`. -/
inductive ResponseEvent where
  | finish
  | close
  | timerFire (now : Nat)
deriving DecidableEq, Repr

/-- One step of the watchdog lifecycle: finish/close cancel the timer; a
cancelled timer's callback never runs; an uncancelled callback executes
`fireDownloadWatchdog`. -/
def sessionStep (s : DownloadSession) (e : ResponseEvent) :
    DownloadSession × WatchdogAction :=
  match e with
  | .finish => ({ s with timer := { s.timer with cancelled := true } }, .keep)
  | .close => ({ s with timer := { s.timer with cancelled := true } }, .keep)
  | .timerFire now =>
    if s.timer.cancelled then (s, .keep)
    else
      let r := fireDownloadWatchdog now s.headersSent s.tracker
      ({ s with tracker := r.1 }, r.2)

/-! ## The periodic cleanup sweep (cleanupExpiredConnections) -/

/-- The removal condition for a connection tracker (part_006 lines
332-338): inactive for more than 10 minutes with no open connections, or
blocked with the block lapsed. -/
def connTrackerExpired (now : Nat) (t : ConnectionTracker) : Bool :=
  (decide (600000 < now - t.lastActivity) && decide (t.connections = 0)) ||
  (t.isBlocked && decide (t.blockUntil ≤ now))

/-- The removal condition for a download tracker (part_006 lines 341-347):
inactive for more than 30 minutes with no active downloads, or blocked
with the block lapsed. -/
def dlTrackerExpired (now : Nat) (t : DownloadTracker) : Bool :=
  (decide (1800000 < now - t.lastActivity) && decide (t.activeDownloads = 0)) ||
  (t.isBlocked && decide (t.blockUntil ≤ now))

/-- `SlowLorisProtection.cleanupExpiredConnections` (part_006 lines
327-362), run by the 30-second interval: delete every expired entry from
both maps. -/
def cleanupExpiredConnections (now : Nat) (cm : ConnMap) (dm : DlMap) :
    ConnMap × DlMap :=
  (cm.filter fun e => !connTrackerExpired now e.2,
   dm.filter fun e => !dlTrackerExpired now e.2)

/-! ## The full middleware entry point and the server's pipeline -/

structure HttpRequest where
  path : String
  method : String
deriving DecidableEq, Repr

/-- JS `String.prototype.startsWith`: a character-sequence prefix test
(executable form of `String.startsWith`). -/
def strStartsWith (s pre : String) : Bool := pre.data.isPrefixOf s.data

/-- The two tracker maps owned by `SlowLorisProtection`. -/
structure GuardState where
  connectionMap : ConnMap
  downloadMap : DlMap
deriving DecidableEq, Repr

def initialGuardState : GuardState := { connectionMap := [], downloadMap := [] }

/-- `SlowLorisProtection.middleware` (part_006 lines 40-68): GET requests
under `/snapshots/` take the download-protection path, everything else the
connection-protection path. -/
def slowLorisMiddlewareStep (now : Nat) (req : HttpRequest) (ip : String)
    (s : GuardState) : Decision × GuardState :=
  if strStartsWith req.path "/snapshots/" && (req.method == "GET") then
    let r := handleDownloadProtection now s.downloadMap ip
    (r.1, { s with downloadMap := r.2 })
  else
    let r := connectionMiddlewareStep now s.connectionMap ip
    (r.1, { s with connectionMap := r.2 })

/-- The middleware kinds `BackupServer.setupMiddleware` can install. -/
inductive MiddlewareKind where
  | helmet
  | morgan
  | rateLimiter
  | jsonBodyParser
  | urlencodedBodyParser
  | requestValidator
  | slowLoris
deriving DecidableEq, Repr

/-- The stack actually installed by `BackupServer.setupMiddleware`
(BackupServer.ts lines 30-56).  Line 32, which would install
`SlowLorisProtection.middleware()`, is commented out, so `slowLoris` is
absent. -/
def setupMiddlewareStack : List MiddlewareKind :=
  [.helmet, .morgan, .rateLimiter, .jsonBodyParser, .urlencodedBodyParser,
   .requestValidator]

/-- Effect of one installed middleware on the guard's tracker maps: only
the slow-loris middleware ever touches them; every other middleware reads
and writes unrelated state. -/
def middlewareGuardEffect (k : MiddlewareKind) (now : Nat) (req : HttpRequest)
    (ip : String) (s : GuardState) : GuardState :=
  match k with
  | .slowLoris => (slowLorisMiddlewareStep now req ip s).2
  | _ => s

/-- Guard-state effect of pushing one request through the installed
pipeline. -/
def processRequest (s : GuardState) (ev : Nat × HttpRequest × String) :
    GuardState :=
  setupMiddlewareStack.foldl
    (fun s k => middlewareGuardEffect k ev.1 ev.2.1 ev.2.2 s) s

/-- Guard-state effect of a whole request sequence. -/
def processRequests (evs : List (Nat × HttpRequest × String)) (s : GuardState) :
    GuardState :=
  evs.foldl processRequest s

/-- The actions `gracefulShutdown` performs (BackupServer.ts lines
324-340): destroy the slow-loris guard, close the server, and arm the
forced-exit timer. -/
inductive ShutdownAction where
  | slowLorisDestroy
  | serverClose
  | forcedExitTimer
deriving DecidableEq, Repr

def gracefulShutdownActions : List ShutdownAction :=
  [.slowLorisDestroy, .serverClose, .forcedExitTimer]

/-! ## The request rate limiter (SECURITY_CONFIG.RATE_LIMIT) -/

def RATE_LIMIT_windowMs : Nat := 60000

def RATE_LIMIT_max : Nat := 200

/-- `SECURITY_CONFIG.RATE_LIMIT.skip` (security.ts lines 30-32). -/
def rateLimitSkip (req : HttpRequest) : Bool :=
  strStartsWith req.path "/snapshots/" && (req.method == "GET")

/-- Per-IP hit counters of the limiter within one window. -/
structure RateLimiterState where
  hits : List (String × Nat)
deriving DecidableEq, Repr

/-- One request through the `express-rate-limit` middleware, modelled from
the library's documented contract: when `skip(req)` is true the request
passes through without touching the counter; otherwise the key's counter
is incremented and the request is rejected with the 429 handler when the
counter exceeds `max`.  The returned Bool is `true` when the request is
rejected. -/
def rateLimiterStep (st : RateLimiterState) (req : HttpRequest) (ip : String) :
    RateLimiterState × Bool :=
  if rateLimitSkip req then (st, false)
  else
    let n := (match mapGet st.hits ip with | some n => n | none => 0) + 1
    ({ hits := mapSet st.hits ip n }, decide (RATE_LIMIT_max < n))

/-! ## Operation traces over the guard state -/

/-- The operations that touch the tracker maps: the admit-plus-register
step of each path, the unregister handlers wired to finish/close, the
timeout recorder, and the reaper tick. -/
inductive GuardOp where
  | connAdmit (now : Nat) (ip : String)
  | connUnregister (now : Nat) (ip : String)
  | connTimeout (now : Nat) (ip : String)
  | dlAdmit (now : Nat) (ip : String)
  | dlUnregister (now : Nat) (ip : String)
  | reaperTick (now : Nat)
deriving DecidableEq, Repr

def applyGuardOp (s : GuardState) (op : GuardOp) : GuardState :=
  match op with
  | .connAdmit now ip =>
    { s with connectionMap := (connectionMiddlewareStep now s.connectionMap ip).2 }
  | .connUnregister now ip =>
    { s with connectionMap := removeConnection now s.connectionMap ip }
  | .connTimeout now ip =>
    { s with connectionMap := recordTimeout now s.connectionMap ip }
  | .dlAdmit now ip =>
    { s with downloadMap := (handleDownloadProtection now s.downloadMap ip).2 }
  | .dlUnregister now ip =>
    { s with downloadMap := removeDownload now s.downloadMap ip }
  | .reaperTick now =>
    let r := cleanupExpiredConnections now s.connectionMap s.downloadMap
    { connectionMap := r.1, downloadMap := r.2 }

def runGuardOps (ops : List GuardOp) (s : GuardState) : GuardState :=
  ops.foldl applyGuardOp s

/-- Both active-unit counters are non-negative everywhere in the state. -/
def countersNonneg (s : GuardState) : Prop :=
  (∀ e ∈ s.connectionMap, 0 ≤ e.2.connections) ∧
  (∀ e ∈ s.downloadMap, 0 ≤ e.2.activeDownloads)

/-! ## Spec-shaped definitions used to compare the code against the
claims' wording -/

/-- The adaptive threshold exactly as the spec words it:
`min(hardCap, max(baseline, floor(elapsed / rampWindow)))`. -/
def adaptiveThresholdSpec (hardCap baseline rampWindow elapsed : Nat) : Nat :=
  min hardCap (max baseline (elapsed / rampWindow))

/-- The blocking condition exactly as claim C3 words it, evaluated on the
post-increment tracker: `hardCap = MAX_CONCURRENT_CONNECTIONS` appears
both inside the threshold formula and in the OR clause. -/
def claimBlockCondition (now : Nat) (t : ConnectionTracker) : Bool :=
  let elapsed := now - t.firstConnection
  let threshold :=
    adaptiveThresholdSpec SECURITY_CONFIG.MAX_CONCURRENT_CONNECTIONS 20 5000 elapsed
  decide ((threshold : Int) < t.connections) &&
  (decide (SECURITY_CONFIG.SLOW_LORIS_GRACE_PERIOD < elapsed) &&
   (decide (mkRat 1 2 < mkRat t.timeoutCount (max t.requestCount 1)) ||
    decide ((SECURITY_CONFIG.MAX_CONCURRENT_CONNECTIONS : Int) < t.connections)))

/-- The blocking condition the code actually implements, in the claim's
vocabulary: identical to `claimBlockCondition` except that the OR clause
compares against `MAX_SLOW_CONNECTIONS` (50), not the hardCap (100). -/
def amendedBlockCondition (now : Nat) (t : ConnectionTracker) : Bool :=
  let elapsed := now - t.firstConnection
  let threshold :=
    adaptiveThresholdSpec SECURITY_CONFIG.MAX_CONCURRENT_CONNECTIONS 20 5000 elapsed
  decide ((threshold : Int) < t.connections) &&
  (decide (SECURITY_CONFIG.SLOW_LORIS_GRACE_PERIOD < elapsed) &&
   (decide (mkRat 1 2 < mkRat t.timeoutCount (max t.requestCount 1)) ||
    decide ((SECURITY_CONFIG.MAX_SLOW_CONNECTIONS : Int) < t.connections)))

/-- The tracker stored for `ip`, or the fresh tracker `addConnection`
would create at `now`. -/
def connTrackerOrFresh (m : ConnMap) (ip : String) (now : Nat) :
    ConnectionTracker :=
  match mapGet m ip with
  | some t => t
  | none => freshConnectionTracker ip now

/-- The counter/timestamp updates `addConnection` performs before it
evaluates the blocking rule. -/
def registerIncrement (now : Nat) (t : ConnectionTracker) : ConnectionTracker :=
  { t with
    connections := t.connections + 1
    lastActivity := now
    requestCount := t.requestCount + 1 }

/-! ## Concrete traces used as evidence -/

/-- `k` registrations from the same client, all at time `now`. -/
def iterateRegister (ip : String) (now : Nat) : Nat → ConnMap → ConnMap
  | 0, m => m
  | k + 1, m => iterateRegister ip now k (addConnection now m ip)

/-- `k` download registrations from the same client, all at time `now`. -/
def iterateDownloadRegister (ip : String) (now : Nat) : Nat → DlMap → DlMap
  | 0, m => m
  | k + 1, m => iterateDownloadRegister ip now k (addDownload now m ip)

/-- The `(isBlocked, blockUntil)` pair of `ip`'s connection tracker. -/
def connBlockInfo (m : ConnMap) (ip : String) : Bool × Nat :=
  match mapGet m ip with
  | some t => (t.isBlocked, t.blockUntil)
  | none => (false, 0)

/-- The `(isBlocked, blockUntil)` pair of `ip`'s download tracker. -/
def dlBlockInfo (m : DlMap) (ip : String) : Bool × Nat :=
  match mapGet m ip with
  | some t => (t.isBlocked, t.blockUntil)
  | none => (false, 0)

/-- The tracker of a client that performed `k` registrations, all at
time `t0`, and nothing else. -/
def uniformTracker (ip : String) (t0 : Nat) (k : Nat) : ConnectionTracker :=
  { ip := ip
    connections := (k : Int)
    slowConnections := 0
    lastActivity := t0
    isBlocked := false
    blockUntil := 0
    firstConnection := t0
    requestCount := k
    timeoutCount := 0 }

/-- The tracker of a client that started `k` downloads, all at time `t0`,
and nothing else (valid while `k` stays at or below the hard cap). -/
def uniformDlTracker (ip : String) (t0 : Nat) (k : Nat) : DownloadTracker :=
  { ip := ip
    activeDownloads := (k : Int)
    slowDownloads := 0
    totalBytesTransferred := 0
    lastActivity := t0
    isBlocked := false
    blockUntil := 0
    downloadStartTime := t0
    lastTransferTime := t0
    transferRate := 0 }

/-- A connection tracker whose block has lapsed while five requests are
still open: `connections = 5`, `isBlocked` with `blockUntil = 100`. -/
def c1Tracker : ConnectionTracker :=
  { ip := "203.0.113.7"
    connections := 5
    slowConnections := 0
    lastActivity := 200
    isBlocked := true
    blockUntil := 100
    firstConnection := 0
    requestCount := 5
    timeoutCount := 0 }

/-- 101 registrations from one fresh client, all at time 1000, i.e. all
inside the grace period of the client first seen at 1000. -/
def c2Map : ConnMap := iterateRegister "203.0.113.2" 1000 101 []

/-- 59 registrations at time 0 followed by a 60th at time 31000 (past the
grace period). -/
def c3Map : ConnMap := addConnection 31000 (iterateRegister "203.0.113.3" 0 59 []) "203.0.113.3"

/-- Two concurrently registered requests from one client. -/
def c4Map : ConnMap := iterateRegister "203.0.113.4" 0 2 []

/-- Five active downloads from one client, none blocked. -/
def c5Map : DlMap := iterateDownloadRegister "203.0.113.5" 0 5 []

/-- The download tracker right after `addDownload 0 [] ip`. -/
def c8Tracker : DownloadTracker :=
  match mapGet (addDownload 0 [] "203.0.113.8") "203.0.113.8" with
  | some t => t
  | none => freshDownloadTracker "203.0.113.8" 0

/-- Two sampled writes: 1000 bytes at t = 2000 ms, then 500 bytes at
t = 4000 ms, monitoring installed at t = 0. -/
def c8FirstSample : DownloadMonitorState × DownloadTracker :=
  onWriteChunk 2000 1000 { bytesTransferred := 0, startTime := 0 } c8Tracker

def c8SecondSample : DownloadMonitorState × DownloadTracker :=
  onWriteChunk 4000 500 c8FirstSample.1 c8FirstSample.2

/-- The snapshot listing request: `GET /snapshots` (no trailing slash). -/
def listingRequest : HttpRequest := { path := "/snapshots", method := "GET" }



/-! ## Map lemmas -/

theorem mapGet_mapSet_self {α : Type} (m : List (String × α)) (ip : String) (v : α) :
    mapGet (mapSet m ip v) ip = some v := by
  induction m with
  | nil => simp [mapGet, mapSet]
  | cons e rest ih =>
    obtain ⟨k, w⟩ := e
    by_cases h : k = ip <;> simp [mapGet, mapSet, h, ih]

theorem mapGet_mem {α : Type} {m : List (String × α)} {ip : String} {t : α}
    (h : mapGet m ip = some t) : (ip, t) ∈ m := by
  induction m with
  | nil => simp [mapGet] at h
  | cons e rest ih =>
    obtain ⟨k, w⟩ := e
    by_cases hk : k = ip
    · subst hk
      simp [mapGet] at h
      subst h
      exact List.mem_cons_self _ _
    · simp [mapGet, hk] at h
      exact List.mem_cons_of_mem _ (ih h)

theorem mem_mapSet {α : Type} {m : List (String × α)} {ip : String} {v : α}
    {e : String × α} (h : e ∈ mapSet m ip v) : e ∈ m ∨ e = (ip, v) := by
  induction m with
  | nil =>
    simp [mapSet] at h
    exact Or.inr h
  | cons hd rest ih =>
    obtain ⟨k, w⟩ := hd
    by_cases hk : k = ip
    · subst hk
      simp [mapSet] at h
      rcases h with h1 | h1
      · exact Or.inr h1
      · exact Or.inl (List.mem_cons_of_mem _ h1)
    · simp [mapSet, hk] at h
      rcases h with h1 | h1
      · exact Or.inl (by simp [h1])
      · rcases ih h1 with h2 | h2
        · exact Or.inl (List.mem_cons_of_mem _ h2)
        · exact Or.inr h2

/-! ## Exact-arithmetic bridging lemmas

The embedding stores JS float quotients as exact rationals built with
`mkRat`; these lemmas certify that the stored values are the quotients the
source computes. -/

theorem mkRat_int_eq_div (n : Int) (d : Nat) :
    (mkRat n d : ℚ) = (n : ℚ) / (d : ℚ) := by
  rw [Rat.mkRat_eq_divInt, Rat.divInt_eq_div]
  push_cast
  rfl

theorem mkRat_nat_eq_div (a b : Nat) : (mkRat a b : ℚ) = (a : ℚ) / (b : ℚ) := by
  rw [mkRat_int_eq_div]
  push_cast
  rfl

theorem mkRat_thousandths_eq_div_div (b x : Nat) :
    (mkRat (b * 1000) x : ℚ) = (b : ℚ) / (((x : Nat) : ℚ) / 1000) := by
  rw [mkRat_int_eq_div, div_div_eq_mul_div]
  push_cast
  rfl

theorem mkRat_one_half_eq : (mkRat 1 2 : ℚ) = 1 / 2 := by
  rw [mkRat_int_eq_div]
  norm_num

/-! ## C9 -/

/-- C9: `BackupServer.setupMiddleware` never installs the
`SlowLorisProtection` middleware (the installing line is commented out),
so the guard's two tracker maps stay empty across every request sequence
the installed pipeline processes, while `gracefulShutdown` nevertheless
invokes `SlowLorisProtection.destroy()`. -/
theorem C9_slowloris_middleware_never_installed :
    MiddlewareKind.slowLoris ∉ setupMiddlewareStack ∧
    (∀ evs : List (Nat × HttpRequest × String),
      (processRequests evs initialGuardState).connectionMap = [] ∧
      (processRequests evs initialGuardState).downloadMap = []) ∧
    ShutdownAction.slowLorisDestroy ∈ gracefulShutdownActions := by
  refine ⟨by decide, ?_, by decide⟩
  have hstep : ∀ (s : GuardState) (ev : Nat × HttpRequest × String),
      processRequest s ev = s := fun s ev => rfl
  have hrun : ∀ (evs : List (Nat × HttpRequest × String)) (s : GuardState),
      processRequests evs s = s := by
    intro evs
    induction evs with
    | nil => intro s; rfl
    | cons e rest ih =>
      intro s
      show processRequests rest (processRequest s e) = s
      rw [hstep]
      exact ih s
  intro evs
  rw [hrun]
  exact ⟨rfl, rfl⟩

/-! ## C10 -/

/-- C10 counterexample: the snapshot listing is served at `GET /snapshots`,
whose path does not start with `/snapshots/`; the limiter does not skip it
and counts it against the per-IP limit. -/
theorem C10_listing_request_is_counted :
    rateLimitSkip listingRequest = false ∧
    strStartsWith listingRequest.path "/snapshots/" = false ∧
    (rateLimiterStep { hits := [] } listingRequest "198.51.100.1").1.hits
      = [("198.51.100.1", 1)] := by decide

/-- C10 (amended): every GET request whose path starts with `/snapshots/`
(downloads and header lookups) is skipped by the rate limiter — it is
neither counted against nor rejected by the per-IP limit; the listing at
`/snapshots` (no trailing slash) is not covered and is counted. -/
theorem C10_snapshot_subpath_gets_skipped (req : HttpRequest) (ip : String)
    (st : RateLimiterState)
    (hm : req.method = "GET") (hp : strStartsWith req.path "/snapshots/" = true) :
    rateLimitSkip req = true ∧ rateLimiterStep st req ip = (st, false) := by
  have hskip : rateLimitSkip req = true := by
    simp [rateLimitSkip, hp, hm]
  exact ⟨hskip, by simp [rateLimiterStep, hskip]⟩

theorem C10_snapshot_subpath_gets_skipped_witness :
    ({ path := "/snapshots/a.gz", method := "GET" } : HttpRequest).method = "GET" ∧
    strStartsWith ({ path := "/snapshots/a.gz", method := "GET" } : HttpRequest).path
      "/snapshots/" = true ∧
    (rateLimitSkip { path := "/snapshots/a.gz", method := "GET" } = true ∧
     rateLimiterStep { hits := [] } { path := "/snapshots/a.gz", method := "GET" }
       "198.51.100.2" = ({ hits := [] }, false)) :=
  ⟨rfl, by decide,
   C10_snapshot_subpath_gets_skipped { path := "/snapshots/a.gz", method := "GET" }
     "198.51.100.2" { hits := [] } rfl (by decide)⟩

/-! ## C1 -/

/-- C1 counterexample: a tracker with five open connections whose block
has lapsed is deleted by the sweep, so a positive active-unit counter does
not protect an entry from removal. -/
theorem C1_positive_counter_entry_removed :
    0 < c1Tracker.connections ∧
    (cleanupExpiredConnections 200 [("203.0.113.7", c1Tracker)] []).1 = [] := by decide

/-- C1 (amended): the sweep removes an entry exactly when it was inactive
beyond the window with a zero active-unit counter, or when it is blocked
and its block has lapsed — the latter regardless of the counter.  An entry
with a positive counter survives every tick unless its block has lapsed. -/
theorem C1_reaper_removal_rule (now : Nat) (cm : ConnMap) (dm : DlMap)
    (ip : String) (t : ConnectionTracker) (d : DownloadTracker) :
    ((ip, t) ∈ (cleanupExpiredConnections now cm dm).1 ↔
      (ip, t) ∈ cm ∧
      ¬ ((600000 < now - t.lastActivity ∧ t.connections = 0) ∨
         (t.isBlocked = true ∧ t.blockUntil ≤ now))) ∧
    ((ip, d) ∈ (cleanupExpiredConnections now cm dm).2 ↔
      (ip, d) ∈ dm ∧
      ¬ ((1800000 < now - d.lastActivity ∧ d.activeDownloads = 0) ∨
         (d.isBlocked = true ∧ d.blockUntil ≤ now))) := by
  refine ⟨?_, ?_⟩
  · cases hbt : t.isBlocked <;>
      simp [cleanupExpiredConnections, List.mem_filter, connTrackerExpired, hbt] <;>
      (intros; omega)
  · cases hbd : d.isBlocked <;>
      simp [cleanupExpiredConnections, List.mem_filter, dlTrackerExpired, hbd] <;>
      (intros; omega)

/-! ## C4 -/

/-- C4: with two requests from one client registered, running the
unregister path a second time for the first request decrements again —
`removeConnection` is a bare guarded decrement, not idempotent per logical
request, so the counter drops to 0 while a request is still open. -/
theorem C4_second_unregister_decrements_again :
    (mapGet c4Map "203.0.113.4").map (fun t => t.connections) = some 2 ∧
    (mapGet (removeConnection 1 c4Map "203.0.113.4") "203.0.113.4").map
      (fun t => t.connections) = some 1 ∧
    (mapGet (removeConnection 2 (removeConnection 1 c4Map "203.0.113.4")
        "203.0.113.4") "203.0.113.4").map
      (fun t => t.connections) = some 0 := by decide

/-! ## C6 -/

/-- C6: the slow-download watchdog is scheduled `MAX_DOWNLOAD_DURATION`
after arming; when its callback runs uncancelled it blocks the client
until `now + BLOCK_DURATION` and terminates the response (a 408 first
exactly when headers are unsent) iff the tracked `transferRate` is below
`MIN_TRANSFER_RATE`, and otherwise does nothing; finish/close cancel the
timer, and a cancelled watchdog never acts. -/
theorem C6_download_watchdog_behaviour (now ft armedAt dur : Nat) (hs : Bool)
    (w : DownloadWatchdogTimer) (t : DownloadTracker) :
    armDownloadWatchdog now =
      { armedAt := now
        duration := SECURITY_CONFIG.DOWNLOAD_SLOW_LORIS.MAX_DOWNLOAD_DURATION
        cancelled := false } ∧
    watchdogFireTime (armDownloadWatchdog now) =
      now + SECURITY_CONFIG.DOWNLOAD_SLOW_LORIS.MAX_DOWNLOAD_DURATION ∧
    sessionStep
        { timer := { armedAt := armedAt, duration := dur, cancelled := false }
          tracker := t, headersSent := hs } (.timerFire ft) =
      (if t.transferRate < (SECURITY_CONFIG.DOWNLOAD_SLOW_LORIS.MIN_TRANSFER_RATE : ℚ) then
        ({ timer := { armedAt := armedAt, duration := dur, cancelled := false }
           tracker := { t with
             isBlocked := true
             blockUntil := ft + SECURITY_CONFIG.DOWNLOAD_SLOW_LORIS.BLOCK_DURATION }
           headersSent := hs },
         .terminate (!hs))
      else
        ({ timer := { armedAt := armedAt, duration := dur, cancelled := false }
           tracker := t, headersSent := hs }, .keep)) ∧
    sessionStep { timer := w, tracker := t, headersSent := hs } .finish =
      ({ timer := { w with cancelled := true }, tracker := t, headersSent := hs },
       .keep) ∧
    sessionStep { timer := w, tracker := t, headersSent := hs } .close =
      ({ timer := { w with cancelled := true }, tracker := t, headersSent := hs },
       .keep) ∧
    sessionStep
        { timer := { armedAt := armedAt, duration := dur, cancelled := true }
          tracker := t, headersSent := hs } (.timerFire ft) =
      ({ timer := { armedAt := armedAt, duration := dur, cancelled := true }
         tracker := t, headersSent := hs }, .keep) := by
  refine ⟨rfl, rfl, ?_, rfl, rfl, by simp [sessionStep]⟩
  by_cases hc :
      t.transferRate < (SECURITY_CONFIG.DOWNLOAD_SLOW_LORIS.MIN_TRANSFER_RATE : ℚ) <;>
    simp [sessionStep, fireDownloadWatchdog, hc]

/-! ## C8 -/

/-- C8 counterexample: two sampled writes (1000 bytes at t = 2000 ms, 500
bytes at t = 4000 ms, monitoring installed at t = 0).  The second sampling
window carries 500 bytes over 2 seconds, so the claim's per-window
formula gives 250 B/s, but the code stores the cumulative average
1500 bytes / 4 s = 375 B/s. -/
theorem C8_rate_is_not_per_window :
    c8FirstSample.2.transferRate = 500 ∧
    c8FirstSample.2.lastTransferTime = 2000 ∧
    c8FirstSample.1.bytesTransferred = 1000 ∧
    c8SecondSample.1.bytesTransferred = 1500 ∧
    c8SecondSample.2.transferRate = 375 ∧
    (mkRat 500 2 : ℚ) = 250 ∧
    (375 : ℚ) ≠ 250 := by decide

/-- C8 (amended): on a sampled write the rate is recomputed only when
strictly more than 1000 ms have elapsed since the last sample, and the
recomputed value is the cumulative bytes of this download divided by the
seconds elapsed since monitoring start (not the per-window quotient);
`slowDownloads` grows by exactly one precisely when the recomputed rate is
below `SLOW_DOWNLOAD_THRESHOLD`. -/
theorem C8_write_sampling_rule (now chunkLen : Nat) (ms : DownloadMonitorState)
    (t : DownloadTracker) :
    onWriteChunk now chunkLen ms t =
      (if 1000 < now - t.lastTransferTime then
        ({ bytesTransferred := ms.bytesTransferred + chunkLen
           startTime := ms.startTime },
         let rate : ℚ := ((ms.bytesTransferred + chunkLen : Nat) : ℚ) * 1000 /
           ((now - ms.startTime : Nat) : ℚ)
         { t with
           totalBytesTransferred := t.totalBytesTransferred + chunkLen
           transferRate := rate
           lastTransferTime := now
           slowDownloads := t.slowDownloads +
             (if rate < (SECURITY_CONFIG.DOWNLOAD_SLOW_LORIS.SLOW_DOWNLOAD_THRESHOLD : ℚ)
              then 1 else 0) })
      else
        ({ bytesTransferred := ms.bytesTransferred + chunkLen
           startTime := ms.startTime },
         { t with totalBytesTransferred := t.totalBytesTransferred + chunkLen })) := by
  have hr : (mkRat (((ms.bytesTransferred + chunkLen : Nat) : Int) * 1000)
        (now - ms.startTime) : ℚ)
      = ((ms.bytesTransferred + chunkLen : Nat) : ℚ) * 1000 /
        ((now - ms.startTime : Nat) : ℚ) := by
    rw [mkRat_int_eq_div]
    push_cast
    ring
  by_cases h1 : 1000 < now - t.lastTransferTime
  · by_cases h2 : ((ms.bytesTransferred + chunkLen : Nat) : ℚ) * 1000 /
        ((now - ms.startTime : Nat) : ℚ) <
        (SECURITY_CONFIG.DOWNLOAD_SLOW_LORIS.SLOW_DOWNLOAD_THRESHOLD : ℚ) <;>
    · simp only [onWriteChunk, if_pos h1]
      rw [hr]
      push_cast at h2 ⊢
      simp [h2]
  · simp [onWriteChunk, if_neg h1]

/-! ## C2 -/

set_option maxRecDepth 100000 in
/-- C2 counterexample: a fresh client that registers 101 concurrent
connections all inside the grace period (here: all at the first-seen
instant) is not blocked on the 101st register — the blocking rule also
requires `elapsed > SLOW_LORIS_GRACE_PERIOD` — and the next admit is
allowed, not denied. -/
theorem C2_no_block_within_grace_period :
    (mapGet c2Map "203.0.113.2").map (fun t => (t.connections, t.isBlocked))
      = some (101, false) ∧
    (connectionMiddlewareStep 1000 c2Map "203.0.113.2").1 = Decision.allow := by
  decide

/-! ## C3 -/

set_option maxRecDepth 100000 in
/-- C3 counterexample: a client with 59 registrations at time 0 registers a
60th at time 31000.  The code blocks it (60 > adaptiveThreshold 20, past
the grace period, and 60 > MAX_SLOW_CONNECTIONS = 50), but the claim's
condition — with hardCap = 100 in the OR clause — is false there (60 is
not > 100 and the timeout ratio is 0). -/
theorem C3_or_clause_not_hardCap :
    (mapGet c3Map "203.0.113.3").map
      (fun t => (t.isBlocked, claimBlockCondition 31000 t)) = some (true, false) ∧
    (mapGet (iterateRegister "203.0.113.3" 0 59 []) "203.0.113.3").map
      (fun t => t.isBlocked) = some false := by
  decide

/-! ## C5 -/

set_option maxRecDepth 100000 in
/-- C5 counterexample: with five active downloads and no block in force,
the 6th download register is let through (`next()` is called, so the
response streams bytes); the block it sets only denies later requests. -/
theorem C5_sixth_download_is_admitted :
    (mapGet c5Map "203.0.113.5").map (fun t => (t.activeDownloads, t.isBlocked))
      = some (5, false) ∧
    (handleDownloadProtection 0 c5Map "203.0.113.5").1 = Decision.allow := by
  decide

/-! ## C7 -/

theorem addConnection_nonneg {m : ConnMap} {now : Nat} {ip : String}
    (h : ∀ e ∈ m, 0 ≤ e.2.connections) :
    ∀ e ∈ addConnection now m ip, 0 ≤ e.2.connections := by
  intro e he
  cases hg : mapGet m ip with
  | none =>
    simp only [addConnection, hg] at he
    rcases mem_mapSet he with h1 | h1
    · exact h e h1
    · subst h1
      split <;> simp [freshConnectionTracker]
  | some t =>
    have ht : (0 : Int) ≤ t.connections := h _ (mapGet_mem hg)
    simp only [addConnection, hg] at he
    rcases mem_mapSet he with h1 | h1
    · exact h e h1
    · subst h1
      split <;> simp <;> omega

theorem removeConnection_nonneg {m : ConnMap} {now : Nat} {ip : String}
    (h : ∀ e ∈ m, 0 ≤ e.2.connections) :
    ∀ e ∈ removeConnection now m ip, 0 ≤ e.2.connections := by
  intro e he
  cases hg : mapGet m ip with
  | none =>
    simp only [removeConnection, hg] at he
    exact h e he
  | some t =>
    simp only [removeConnection, hg] at he
    by_cases hp : (0 : Int) < t.connections
    · rw [if_pos hp] at he
      rcases mem_mapSet he with h1 | h1
      · exact h e h1
      · subst h1
        simp
        omega
    · rw [if_neg hp] at he
      exact h e he

theorem recordTimeout_nonneg {m : ConnMap} {now : Nat} {ip : String}
    (h : ∀ e ∈ m, 0 ≤ e.2.connections) :
    ∀ e ∈ recordTimeout now m ip, 0 ≤ e.2.connections := by
  intro e he
  cases hg : mapGet m ip with
  | none =>
    simp only [recordTimeout, hg] at he
    exact h e he
  | some t =>
    have ht : (0 : Int) ≤ t.connections := h _ (mapGet_mem hg)
    simp only [recordTimeout, hg] at he
    rcases mem_mapSet he with h1 | h1
    · exact h e h1
    · subst h1
      split <;> simpa using ht

theorem isIpBlocked_nonneg {m : ConnMap} {now : Nat} {ip : String}
    (h : ∀ e ∈ m, 0 ≤ e.2.connections) :
    ∀ e ∈ (isIpBlocked now m ip).2, 0 ≤ e.2.connections := by
  intro e he
  cases hg : mapGet m ip with
  | none =>
    simp only [isIpBlocked, hg] at he
    exact h e he
  | some t =>
    have ht : (0 : Int) ≤ t.connections := h _ (mapGet_mem hg)
    simp only [isIpBlocked, hg] at he
    split at he
    · exact h e he
    · split at he
      · simp only at he
        rcases mem_mapSet he with h1 | h1
        · exact h e h1
        · subst h1
          simpa using ht
      · exact h e he

theorem connectionMiddlewareStep_nonneg {m : ConnMap} {now : Nat} {ip : String}
    (h : ∀ e ∈ m, 0 ≤ e.2.connections) :
    ∀ e ∈ (connectionMiddlewareStep now m ip).2, 0 ≤ e.2.connections := by
  have hb := @isIpBlocked_nonneg _ now ip h
  intro e he
  simp only [connectionMiddlewareStep] at he
  split at he
  · exact hb e he
  · exact addConnection_nonneg hb e he

theorem addDownload_nonneg {m : DlMap} {now : Nat} {ip : String}
    (h : ∀ e ∈ m, 0 ≤ e.2.activeDownloads) :
    ∀ e ∈ addDownload now m ip, 0 ≤ e.2.activeDownloads := by
  intro e he
  cases hg : mapGet m ip with
  | none =>
    simp only [addDownload, hg] at he
    rcases mem_mapSet he with h1 | h1
    · exact h e h1
    · subst h1
      split <;> simp [freshDownloadTracker]
  | some t =>
    have ht : (0 : Int) ≤ t.activeDownloads := h _ (mapGet_mem hg)
    simp only [addDownload, hg] at he
    rcases mem_mapSet he with h1 | h1
    · exact h e h1
    · subst h1
      split <;> simp <;> omega

theorem removeDownload_nonneg {m : DlMap} {now : Nat} {ip : String}
    (h : ∀ e ∈ m, 0 ≤ e.2.activeDownloads) :
    ∀ e ∈ removeDownload now m ip, 0 ≤ e.2.activeDownloads := by
  intro e he
  cases hg : mapGet m ip with
  | none =>
    simp only [removeDownload, hg] at he
    exact h e he
  | some t =>
    simp only [removeDownload, hg] at he
    by_cases hp : (0 : Int) < t.activeDownloads
    · rw [if_pos hp] at he
      rcases mem_mapSet he with h1 | h1
      · exact h e h1
      · subst h1
        simp
        omega
    · rw [if_neg hp] at he
      exact h e he

theorem isDownloadBlocked_nonneg {m : DlMap} {now : Nat} {ip : String}
    (h : ∀ e ∈ m, 0 ≤ e.2.activeDownloads) :
    ∀ e ∈ (isDownloadBlocked now m ip).2, 0 ≤ e.2.activeDownloads := by
  intro e he
  cases hg : mapGet m ip with
  | none =>
    simp only [isDownloadBlocked, hg] at he
    exact h e he
  | some t =>
    have ht : (0 : Int) ≤ t.activeDownloads := h _ (mapGet_mem hg)
    simp only [isDownloadBlocked, hg] at he
    split at he
    · exact h e he
    · split at he
      · simp only at he
        rcases mem_mapSet he with h1 | h1
        · exact h e h1
        · subst h1
          simpa using ht
      · exact h e he

theorem handleDownloadProtection_nonneg {m : DlMap} {now : Nat} {ip : String}
    (h : ∀ e ∈ m, 0 ≤ e.2.activeDownloads) :
    ∀ e ∈ (handleDownloadProtection now m ip).2, 0 ≤ e.2.activeDownloads := by
  have hb := @isDownloadBlocked_nonneg _ now ip h
  intro e he
  simp only [handleDownloadProtection] at he
  split at he
  · exact hb e he
  · exact addDownload_nonneg hb e he

theorem applyGuardOp_nonneg {s : GuardState} (op : GuardOp)
    (h : countersNonneg s) : countersNonneg (applyGuardOp s op) := by
  obtain ⟨hc, hd⟩ := h
  cases op with
  | connAdmit now ip => exact ⟨connectionMiddlewareStep_nonneg hc, hd⟩
  | connUnregister now ip => exact ⟨removeConnection_nonneg hc, hd⟩
  | connTimeout now ip => exact ⟨recordTimeout_nonneg hc, hd⟩
  | dlAdmit now ip => exact ⟨hc, handleDownloadProtection_nonneg hd⟩
  | dlUnregister now ip => exact ⟨hc, removeDownload_nonneg hd⟩
  | reaperTick now =>
    refine ⟨?_, ?_⟩
    · intro e he
      simp only [applyGuardOp, cleanupExpiredConnections] at he
      exact hc e (List.mem_of_mem_filter he)
    · intro e he
      simp only [applyGuardOp, cleanupExpiredConnections] at he
      exact hd e (List.mem_of_mem_filter he)

/-- C7: over every interleaving of the guard's operations — admits with
registration, unregisters (including unmatched and repeated ones),
timeout records, and reaper ticks — every tracked `connections` and
`activeDownloads` counter is non-negative at every instant. -/
theorem C7_counters_never_negative (ops : List GuardOp) :
    countersNonneg (runGuardOps ops initialGuardState) := by
  have hinit : countersNonneg initialGuardState := by
    constructor <;> intro e he <;> simp [initialGuardState] at he
  have hrun : ∀ (l : List GuardOp) (s : GuardState),
      countersNonneg s → countersNonneg (runGuardOps l s) := by
    intro l
    induction l with
    | nil => intro s hs; exact hs
    | cons op rest ih =>
      intro s hs
      exact ih (applyGuardOp s op) (applyGuardOp_nonneg op hs)
  exact hrun ops initialGuardState hinit

/-! ## Characterization of addConnection and the uniform-trace lemmas -/

/-- `addConnection` stores, under `ip`, exactly the incremented tracker,
blocked iff the amended condition holds on it. -/
theorem addConnection_characterization (now : Nat) (m : ConnMap) (ip : String) :
    mapGet (addConnection now m ip) ip =
      some (
        let t1 := registerIncrement now (connTrackerOrFresh m ip now)
        if amendedBlockCondition now t1 then
          { t1 with
            isBlocked := true
            blockUntil := now + SECURITY_CONFIG.SLOW_LORIS_BLOCK_DURATION }
        else t1) := by
  simp only [addConnection, amendedBlockCondition, connTrackerOrFresh,
    registerIncrement, adaptiveThresholdSpec, mapGet_mapSet_self]

/-- C3 (amended): on each register, after incrementing counters, the code
sets `blocked = true` with `blockedUntil = now + blockDuration` exactly
when `connections > adaptiveThreshold ∧ elapsed > gracePeriod ∧
(timeoutRatio > 1/2 ∨ connections > MAX_SLOW_CONNECTIONS)`, where the
threshold formula uses hardCap = MAX_CONCURRENT_CONNECTIONS = 100 but the
OR clause compares against the distinct constant MAX_SLOW_CONNECTIONS =
50, not the hardCap. -/
theorem C3_register_blocking_rule (now : Nat) (m : ConnMap) (ip : String) :
    mapGet (addConnection now m ip) ip =
      some (
        let t1 := registerIncrement now (connTrackerOrFresh m ip now)
        if amendedBlockCondition now t1 then
          { t1 with
            isBlocked := true
            blockUntil := now + SECURITY_CONFIG.SLOW_LORIS_BLOCK_DURATION }
        else t1) ∧
    SECURITY_CONFIG.MAX_SLOW_CONNECTIONS ≠ SECURITY_CONFIG.MAX_CONCURRENT_CONNECTIONS :=
  ⟨addConnection_characterization now m ip, by decide⟩

theorem addConnection_at_first_seen (ip : String) (t0 : Nat) (k : Nat) :
    addConnection t0 [(ip, uniformTracker ip t0 k)] ip
      = [(ip, uniformTracker ip t0 (k + 1))] := by
  simp [addConnection, mapGet, mapSet, uniformTracker,
    SECURITY_CONFIG.SLOW_LORIS_GRACE_PERIOD]

theorem addConnection_first (ip : String) (t0 : Nat) :
    addConnection t0 [] ip = [(ip, uniformTracker ip t0 1)] := by
  simp [addConnection, mapGet, mapSet, uniformTracker, freshConnectionTracker,
    SECURITY_CONFIG.SLOW_LORIS_GRACE_PERIOD]

theorem iterateRegister_uniform (ip : String) (t0 : Nat) (k j : Nat) :
    iterateRegister ip t0 k [(ip, uniformTracker ip t0 j)]
      = [(ip, uniformTracker ip t0 (j + k))] := by
  induction k generalizing j with
  | zero => simp [iterateRegister]
  | succ n ih =>
    show iterateRegister ip t0 n
        (addConnection t0 [(ip, uniformTracker ip t0 j)] ip)
      = [(ip, uniformTracker ip t0 (j + (n + 1)))]
    rw [addConnection_at_first_seen, ih, show j + 1 + n = j + (n + 1) from by omega]

theorem iterateRegister_hundred (ip : String) (t0 : Nat) :
    iterateRegister ip t0 100 [] = [(ip, uniformTracker ip t0 100)] := by
  show iterateRegister ip t0 99 (addConnection t0 [] ip)
    = [(ip, uniformTracker ip t0 100)]
  rw [addConnection_first, iterateRegister_uniform]

/-- C2 (amended): a fresh client (first seen at `t0`) with 100 open
connections registered during the grace period is not blocked; when the
101st register arrives after the grace period has elapsed
(`now > t0 + gracePeriod`), it sets the blocked flag with
`blockedUntil = now + blockDuration`, and an immediate admit is denied
with `retryAfterSeconds = blockDuration / 1000 = 600`. -/
theorem C2_block_on_101st_register_after_grace (ip : String) (t0 now : Nat)
    (h : t0 + SECURITY_CONFIG.SLOW_LORIS_GRACE_PERIOD < now) :
    connBlockInfo (addConnection now (iterateRegister ip t0 100 []) ip) ip
      = (true, now + SECURITY_CONFIG.SLOW_LORIS_BLOCK_DURATION) ∧
    (connectionMiddlewareStep now
        (addConnection now (iterateRegister ip t0 100 []) ip) ip).1
      = Decision.deny (SECURITY_CONFIG.SLOW_LORIS_BLOCK_DURATION / 1000) := by
  simp only [SECURITY_CONFIG.SLOW_LORIS_GRACE_PERIOD] at h
  rw [iterateRegister_hundred]
  have hfresh : connTrackerOrFresh [(ip, uniformTracker ip t0 100)] ip now
      = uniformTracker ip t0 100 := by
    simp [connTrackerOrFresh, mapGet]
  have hcond : amendedBlockCondition now
      (registerIncrement now (uniformTracker ip t0 100)) = true := by
    simp only [amendedBlockCondition, adaptiveThresholdSpec, registerIncrement,
      uniformTracker,
      SECURITY_CONFIG.SLOW_LORIS_GRACE_PERIOD, SECURITY_CONFIG.MAX_SLOW_CONNECTIONS,
      SECURITY_CONFIG.MAX_CONCURRENT_CONNECTIONS,
      Bool.and_eq_true, Bool.or_eq_true, decide_eq_true_eq]
    refine ⟨?_, ?_, Or.inr ?_⟩
    · omega
    · omega
    · omega
  have hchar := addConnection_characterization now [(ip, uniformTracker ip t0 100)] ip
  simp only [hfresh, hcond, if_true] at hchar
  constructor
  · simp [connBlockInfo, hchar]
  · have hlt : now < now + SECURITY_CONFIG.SLOW_LORIS_BLOCK_DURATION := by
      simp [SECURITY_CONFIG.SLOW_LORIS_BLOCK_DURATION]
    simp [connectionMiddlewareStep, isIpBlocked, hchar, hlt, getBlockTime, ceilDiv,
      SECURITY_CONFIG.SLOW_LORIS_BLOCK_DURATION]

set_option maxRecDepth 400000 in
theorem C2_block_on_101st_register_after_grace_witness :
    0 + SECURITY_CONFIG.SLOW_LORIS_GRACE_PERIOD < 30001 ∧
    (connBlockInfo (addConnection 30001 (iterateRegister "203.0.113.21" 0 100 [])
        "203.0.113.21") "203.0.113.21"
      = (true, 30001 + SECURITY_CONFIG.SLOW_LORIS_BLOCK_DURATION) ∧
     (connectionMiddlewareStep 30001 (addConnection 30001
        (iterateRegister "203.0.113.21" 0 100 []) "203.0.113.21") "203.0.113.21").1
      = Decision.deny (SECURITY_CONFIG.SLOW_LORIS_BLOCK_DURATION / 1000)) :=
  ⟨by decide,
   C2_block_on_101st_register_after_grace "203.0.113.21" 0 30001 (by decide)⟩

theorem addDownload_at_start (ip : String) (t0 : Nat) (k : Nat) (hk : k + 1 ≤ 5) :
    addDownload t0 [(ip, uniformDlTracker ip t0 k)] ip
      = [(ip, uniformDlTracker ip t0 (k + 1))] := by
  have hno : ¬ ((SECURITY_CONFIG.DOWNLOAD_SLOW_LORIS.MAX_SLOW_DOWNLOADS : Int)
      < (k : Int) + 1) := by
    simp only [SECURITY_CONFIG.DOWNLOAD_SLOW_LORIS.MAX_SLOW_DOWNLOADS]
    omega
  simp [addDownload, mapGet, mapSet, uniformDlTracker, hno]

theorem addDownload_first (ip : String) (t0 : Nat) :
    addDownload t0 [] ip = [(ip, uniformDlTracker ip t0 1)] := by
  simp [addDownload, mapGet, mapSet, uniformDlTracker, freshDownloadTracker,
    SECURITY_CONFIG.DOWNLOAD_SLOW_LORIS.MAX_SLOW_DOWNLOADS]

theorem iterateDownloadRegister_uniform (ip : String) (t0 : Nat) (k j : Nat)
    (hjk : j + k ≤ 5) :
    iterateDownloadRegister ip t0 k [(ip, uniformDlTracker ip t0 j)]
      = [(ip, uniformDlTracker ip t0 (j + k))] := by
  induction k generalizing j with
  | zero => simp [iterateDownloadRegister]
  | succ n ih =>
    show iterateDownloadRegister ip t0 n
        (addDownload t0 [(ip, uniformDlTracker ip t0 j)] ip)
      = [(ip, uniformDlTracker ip t0 (j + (n + 1)))]
    rw [addDownload_at_start ip t0 j (by omega), ih (j + 1) (by omega),
      show j + 1 + n = j + (n + 1) from by omega]

theorem iterateDownloadRegister_five (ip : String) (t0 : Nat) :
    iterateDownloadRegister ip t0 5 [] = [(ip, uniformDlTracker ip t0 5)] := by
  show iterateDownloadRegister ip t0 4 (addDownload t0 [] ip)
    = [(ip, uniformDlTracker ip t0 5)]
  rw [addDownload_first, iterateDownloadRegister_uniform ip t0 4 1 (by omega)]

/-- C5 (amended): with `maxConcurrentDownloadsPerClient = 5` and five
active downloads, the register for a 6th concurrent download is itself
admitted (the response streams), but it sets the client blocked with
`blockedUntil = now + BLOCK_DURATION`; the next download request while the
block is active is denied with 429 and an integer `retryAfterSeconds`
equal to `⌈(blockedUntil − now) / 1000⌉`. -/
theorem C5_sixth_register_blocks_later_requests (ip : String) (t0 now now2 : Nat)
    (h2 : now2 < now + SECURITY_CONFIG.DOWNLOAD_SLOW_LORIS.BLOCK_DURATION) :
    (handleDownloadProtection now (iterateDownloadRegister ip t0 5 []) ip).1
      = Decision.allow ∧
    dlBlockInfo
        (handleDownloadProtection now (iterateDownloadRegister ip t0 5 []) ip).2 ip
      = (true, now + SECURITY_CONFIG.DOWNLOAD_SLOW_LORIS.BLOCK_DURATION) ∧
    (handleDownloadProtection now2
        (handleDownloadProtection now (iterateDownloadRegister ip t0 5 []) ip).2
        ip).1
      = Decision.deny
          (ceilDiv (now + SECURITY_CONFIG.DOWNLOAD_SLOW_LORIS.BLOCK_DURATION - now2)
            1000) := by
  simp only [SECURITY_CONFIG.DOWNLOAD_SLOW_LORIS.BLOCK_DURATION] at h2 ⊢
  rw [iterateDownloadRegister_five]
  have hstep : handleDownloadProtection now [(ip, uniformDlTracker ip t0 5)] ip
      = (.allow,
         [(ip, { uniformDlTracker ip t0 5 with
                  activeDownloads := (5 : Int) + 1
                  lastActivity := now
                  downloadStartTime := now
                  lastTransferTime := now
                  isBlocked := true
                  blockUntil := now + 300000 })]) := by
    simp [handleDownloadProtection, isDownloadBlocked, addDownload, mapGet, mapSet,
      uniformDlTracker, SECURITY_CONFIG.DOWNLOAD_SLOW_LORIS.MAX_SLOW_DOWNLOADS,
      SECURITY_CONFIG.DOWNLOAD_SLOW_LORIS.BLOCK_DURATION]
  rw [hstep]
  refine ⟨rfl, by simp [dlBlockInfo, mapGet, uniformDlTracker], ?_⟩
  have hb : now2 < now + 300000 := h2
  simp [handleDownloadProtection, isDownloadBlocked, mapGet, uniformDlTracker,
    getDownloadBlockTime, ceilDiv, hb]

theorem C5_sixth_register_blocks_later_requests_witness :
    (20 : Nat) < 10 + SECURITY_CONFIG.DOWNLOAD_SLOW_LORIS.BLOCK_DURATION ∧
    ((handleDownloadProtection 10
        (iterateDownloadRegister "203.0.113.51" 0 5 []) "203.0.113.51").1
      = Decision.allow ∧
    dlBlockInfo
        (handleDownloadProtection 10
          (iterateDownloadRegister "203.0.113.51" 0 5 []) "203.0.113.51").2
        "203.0.113.51"
      = (true, 10 + SECURITY_CONFIG.DOWNLOAD_SLOW_LORIS.BLOCK_DURATION) ∧
    (handleDownloadProtection 20
        (handleDownloadProtection 10
          (iterateDownloadRegister "203.0.113.51" 0 5 []) "203.0.113.51").2
        "203.0.113.51").1
      = Decision.deny
          (ceilDiv (10 + SECURITY_CONFIG.DOWNLOAD_SLOW_LORIS.BLOCK_DURATION - 20)
            1000)) :=
  ⟨by decide,
   C5_sixth_register_blocks_later_requests "203.0.113.51" 0 10 20 (by decide)⟩
